import Mathlib

/-!
Verification of the conversation-memory / context-window budgeting component of
the RAG chat assistant (src/src/rag/memory_manager.py) and of the provider
dispatch layer (src/src/rag/llm_query.py), against its natural-language
specification.

Modelling conventions:
* `ChatMessage` / `MessageRole` mirror the llama_index message objects used by
  the source: a role tag plus a content string.
* The tiktoken encoder held in `MemoryManager.encoding` is an external
  dependency; it is embedded as an abstract function `encoding : String → List Nat`
  (the token list of a text), so `count_tokens text = (encoding text).length`
  exactly as in the source.  Concrete instantiations in witnesses pick simple
  concrete encoders.
* The float `question_threshold` (0.2 in config) is modelled as the exact
  rational `question_threshold_num / question_threshold_den`; the source's
  comparison `query_tokens > token_limit * question_threshold` is stated
  cross-multiplied, which is exact for rational thresholds.
* `_summarize_with_model` performs network I/O; it is embedded as an oracle
  `String → Option String` giving, for the conversation text, either the
  model's stripped reply or `none` (missing key, unknown provider, or any
  exception caught inside `_summarize_with_model`).
* Python `while` loops that shrink a string by 10% per iteration are genuinely
  partial, so they are embedded with an explicit fuel parameter returning
  `Option`; `none` models non-termination (no fuel bound suffices).
* Python `int(len(s) * 0.9)` is modelled as `9 * len / 10` in `Nat`; for the
  string lengths reachable here the float product rounds to the same integer.
* Debug `print` statements of the source are omitted (they do not affect the
  returned values).
-/

inductive MessageRole where
  | system
  | user
  | assistant
deriving DecidableEq, Repr

structure ChatMessage where
  role : MessageRole
  content : String
deriving DecidableEq, Repr

/-- State of `MemoryManager` (memory_manager.py lines 20-47): the budget
configuration copied from config.py at construction time, the chat history,
and the tiktoken encoder. -/
structure MemoryManager where
  encoding : String → List Nat
  token_limit : Nat
  recent_messages_limit : Nat
  summarize_threshold_num : Nat
  summarize_threshold_den : Nat
  question_threshold_num : Nat
  question_threshold_den : Nat
  chat_history : List ChatMessage

/-- memory_manager.py lines 49-51: `len(self.encoding.encode(text))`. -/
def MemoryManager.count_tokens (m : MemoryManager) (text : String) : Nat :=
  (m.encoding text).length

/-- memory_manager.py lines 53-58: total token count of the chat history. -/
def MemoryManager.get_chat_history_token_count (m : MemoryManager) : Nat :=
  m.chat_history.foldl (fun total message => total + m.count_tokens message.content) 0

/-- memory_manager.py lines 60-62: append one message to the history. -/
def MemoryManager.add_message (m : MemoryManager) (role : MessageRole) (content : String) :
    MemoryManager :=
  { m with chat_history := m.chat_history ++ [ChatMessage.mk role content] }

/-- Python `l[-count:]` (note `l[-0:]` is the whole list). -/
def py_tail_slice (l : List ChatMessage) (count : Nat) : List ChatMessage :=
  if count = 0 then l else l.drop (l.length - count)

/-- memory_manager.py lines 64-66:
`self.chat_history[-count:] if len(self.chat_history) >= count else self.chat_history`. -/
def MemoryManager.get_recent_messages (m : MemoryManager) (count : Nat) : List ChatMessage :=
  if count ≤ m.chat_history.length then py_tail_slice m.chat_history count else m.chat_history

/-- memory_manager.py lines 68-75: slice `chat_history[start:end]` with
`start = max 0 start_idx`, `end = min len end_idx`, returning `[]` when
`start_idx` is out of bounds. -/
def MemoryManager.get_older_messages (m : MemoryManager) (start_idx end_idx : Nat) :
    List ChatMessage :=
  if m.chat_history.length ≤ start_idx then []
  else (m.chat_history.take (min m.chat_history.length end_idx)).drop start_idx

/-- memory_manager.py lines 83-85 and 117-121: one formatted line
`"User: ..."` or `"Assistant: ..."` for a message. -/
def format_message_line (msg : ChatMessage) : String :=
  (if msg.role = MessageRole.user then "User" else "Assistant") ++ ": " ++ msg.content

/-- memory_manager.py line 87: the conversation text handed to the model. -/
def conversation_text_of (messages : List ChatMessage) : String :=
  String.intercalate "\n" (messages.map format_message_line)

/-- memory_manager.py lines 100-113: the deterministic fallback summary body
(the part appended after the `"Previous conversation summary:\n"` header). -/
def fallback_summary_body (formatted_messages : List String) : String :=
  if 10 < formatted_messages.length then
    String.intercalate "\n" (formatted_messages.take 5)
      ++ "\n... [previous exchanges] ..."
      ++ String.intercalate "\n" (formatted_messages.drop (formatted_messages.length - 5))
      ++ "\n\nIn total: " ++ toString formatted_messages.length ++ " exchanges summarized."
  else
    String.intercalate "\n" formatted_messages

/-- memory_manager.py lines 77-113: `summarize_messages`.  The oracle stands
for `_summarize_with_model` (lines 310-369), whose every failure mode —
missing key, unknown provider, provider exception — yields `None` there, and
whose exceptions never propagate (lines 367-369); the `try/except` of lines
90-97 therefore reduces to a case split on the oracle's answer, with Python's
`if summary:` treating the empty string as false. -/
def MemoryManager.summarize_messages (m : MemoryManager) (oracle : String → Option String)
    (messages : List ChatMessage) : String :=
  let formatted_messages := messages.map format_message_line
  let conversation_text := String.intercalate "\n" formatted_messages
  match oracle conversation_text with
  | some summary =>
      if summary = "" then "Previous conversation summary:\n" ++ fallback_summary_body formatted_messages
      else "Previous conversation summary:\n" ++ summary
  | none => "Previous conversation summary:\n" ++ fallback_summary_body formatted_messages

/-- memory_manager.py lines 190, 217: the user turn combining the retrieved
context and the query. -/
def build_user_content (context query : String) : String :=
  "Context:\n" ++ context ++ "\n\nQuestion: " ++ query
    ++ "\n\nRemember: If the answer is not fully contained in the context, reply ONLY with \x27I don\x27t have enough information to answer this question.\x27"

/-- Inline token total of a message list (memory_manager.py lines 195-197,
221-224, 243-246, 275-278, 300). -/
def MemoryManager.total_tokens_of (m : MemoryManager) (messages : List ChatMessage) : Nat :=
  messages.foldl (fun total msg => total + m.count_tokens msg.content) 0

/-- Substring test, Python's `sub in s` (memory_manager.py lines 236, 261, 284). -/
def str_contains (s pat : String) : Bool :=
  (List.range (s.data.length + 1)).any (fun i => pat.data.isPrefixOf (s.data.drop i))

/-- A message the source treats as the summary turn: SYSTEM role whose content
contains the marker substring. -/
def is_summary_message (msg : ChatMessage) : Bool :=
  msg.role = MessageRole.system && str_contains msg.content "Previous conversation summary"

/-- memory_manager.py line 210 marker. -/
def context_truncation_marker : String := "\n[Context truncated due to length]"

/-- memory_manager.py line 292 marker. -/
def summary_truncation_marker : String := "\n[Summary truncated due to length]"

/-- One iteration of the 10%-shrink: `s[:int(len(s)*0.9)] + marker`
(memory_manager.py lines 209-210 and 291-292). -/
def truncate_step (marker : String) (s : String) : String :=
  String.mk (s.data.take (9 * s.data.length / 10)) ++ marker

/-- The `while count(s) > max_tokens and len(s) > min_len` shrink loop
(memory_manager.py lines 207-210 and 290-292), with fuel; `none` models
non-termination. -/
def truncate_loop (count : String → Nat) (max_tokens : Int) (min_len : Nat) (marker : String) :
    Nat → String → Option String
  | 0, _ => none
  | fuel + 1, s =>
      if (count s : Int) > max_tokens ∧ min_len < s.data.length then
        truncate_loop count max_tokens min_len marker fuel (truncate_step marker s)
      else some s

/-- memory_manager.py lines 213-219: replace the FIRST message whose role is
USER by a fresh user message with the given content (then `break`). -/
def replace_first_user : List ChatMessage → String → List ChatMessage
  | [], _ => []
  | msg :: rest, content =>
      if msg.role = MessageRole.user then ChatMessage.mk MessageRole.user content :: rest
      else msg :: replace_first_user rest content

/-- memory_manager.py lines 235-241 and 260-267: replace the FIRST summary
message by a fresh SYSTEM message with the given content (then `break`). -/
def replace_first_summary : List ChatMessage → String → List ChatMessage
  | [], _ => []
  | msg :: rest, content =>
      if is_summary_message msg then ChatMessage.mk MessageRole.system content :: rest
      else msg :: replace_first_summary rest content

/-- Python `list.insert i x` (memory_manager.py line 270). -/
def py_insert (l : List ChatMessage) (i : Nat) (a : ChatMessage) : List ChatMessage :=
  l.take i ++ a :: l.drop i

/-- memory_manager.py lines 283-297: walk to the first summary message; there
compute `max_summary_tokens = count(content) - excess - 50`, run the shrink
loop if that bound exceeds 100, store the truncated content, and stop. -/
def truncate_first_summary (count : String → Nat) (excess : Nat) (fuel : Nat) :
    List ChatMessage → Option (List ChatMessage)
  | [] => some []
  | msg :: rest =>
      if is_summary_message msg then
        let max_summary_tokens : Int := (count msg.content : Int) - (excess : Int) - 50
        if 100 < max_summary_tokens then
          (truncate_loop count max_summary_tokens 200 summary_truncation_marker fuel
              msg.content).map
            (fun truncated_summary => ChatMessage.mk MessageRole.system truncated_summary :: rest)
        else some (msg :: rest)
      else (truncate_first_summary count excess fuel rest).map (fun tail => msg :: tail)

/-- memory_manager.py lines 159-192: the baseline assembly — system prompt,
then (for non-empty history) an optional summary turn over
`get_older_messages 3 15` followed by the recent messages, then the user turn
combining context and query.  Note line 179 wraps the summarizer's output —
which already starts with the header — in the header a second time. -/
def MemoryManager.baseline_messages (m : MemoryManager) (oracle : String → Option String)
    (query system_prompt context : String) : List ChatMessage :=
  let messages : List ChatMessage := [ChatMessage.mk MessageRole.system system_prompt]
  let messages :=
    if 0 < m.chat_history.length then
      let recent_messages := m.get_recent_messages m.recent_messages_limit
      let messages :=
        if m.recent_messages_limit < m.chat_history.length then
          let older_messages := m.get_older_messages 3 15
          if older_messages.isEmpty then messages
          else
            messages ++ [ChatMessage.mk MessageRole.system
              ("Previous conversation summary:\n" ++ m.summarize_messages oracle older_messages)]
        else messages
      messages ++ recent_messages
    else messages
  messages ++ [ChatMessage.mk MessageRole.user (build_user_content context query)]

/-- memory_manager.py lines 159-297: baseline assembly followed by the
degradation ladder (context truncation for histories of fewer than 10
messages, re-summarization of messages beyond 15, aggressive summarization of
everything beyond the recent window with replace-or-insert, and final summary
truncation).  `none` models divergence of one of the shrink loops. -/
def MemoryManager.assemble_messages (m : MemoryManager) (oracle : String → Option String)
    (fuel : Nat) (query system_prompt context : String) : Option (List ChatMessage) :=
  let context_tokens := m.count_tokens context
  let messages := m.baseline_messages oracle query system_prompt context
  let total_tokens := m.total_tokens_of messages
  if m.token_limit < total_tokens then
    let after_context : Option (List ChatMessage × Nat) :=
      if m.chat_history.length < 10 then
        let max_context_tokens : Int :=
          (m.token_limit : Int) - ((total_tokens : Int) - (context_tokens : Int)) - 100
        if 100 < max_context_tokens then
          match truncate_loop m.count_tokens max_context_tokens 100 context_truncation_marker
              fuel context with
          | none => none
          | some truncated_context =>
              let messages := replace_first_user messages (build_user_content truncated_context query)
              some (messages, m.total_tokens_of messages)
        else some (messages, total_tokens)
      else some (messages, total_tokens)
    match after_context with
    | none => none
    | some (messages, total_tokens) =>
        let step_b :=
          if m.token_limit < total_tokens ∧ 15 < m.chat_history.length then
            let very_old_messages := m.get_older_messages 15 m.chat_history.length
            if very_old_messages.isEmpty then (messages, total_tokens)
            else
              let messages := replace_first_summary messages
                ("Previous conversation summary:\n"
                  ++ m.summarize_messages oracle very_old_messages)
              (messages, m.total_tokens_of messages)
          else (messages, total_tokens)
        let messages := step_b.1
        let total_tokens := step_b.2
        if m.token_limit < total_tokens then
          if m.recent_messages_limit < m.chat_history.length then
            let all_older_messages :=
              m.get_older_messages m.recent_messages_limit m.chat_history.length
            if all_older_messages.isEmpty then some messages
            else
              let summary := m.summarize_messages oracle all_older_messages
              let messages :=
                if messages.any is_summary_message then
                  replace_first_summary messages ("Previous conversation summary:\n" ++ summary)
                else
                  py_insert messages 1 (ChatMessage.mk MessageRole.system
                    ("Previous conversation summary:\n" ++ summary))
              let total_tokens := m.total_tokens_of messages
              if m.token_limit < total_tokens then
                truncate_first_summary m.count_tokens (total_tokens - m.token_limit) fuel messages
              else some messages
          else some messages
        else some messages
  else some messages

/-- memory_manager.py lines 123-303: `prepare_context`.  The early return of
lines 156-157 rejects an oversized query; otherwise the assembled (possibly
degraded) messages are returned with error `None` (line 303 — the source has
no other error return).  The third component threads the manager state: the
method never writes `self`, so every return site carries `m` unchanged. -/
def MemoryManager.prepare_context (m : MemoryManager) (oracle : String → Option String)
    (fuel : Nat) (query system_prompt context : String) :
    Option (List ChatMessage × Option String × MemoryManager) :=
  let query_tokens := m.count_tokens query
  if query_tokens * m.question_threshold_den > m.token_limit * m.question_threshold_num then
    some ([], some "Your question is too long. Please ask a shorter question.", m)
  else
    (m.assemble_messages oracle fuel query system_prompt context).map
      (fun messages => (messages, none, m))

/-- memory_manager.py lines 305-308: `add_exchange` appends the user turn then
the assistant turn. -/
def MemoryManager.add_exchange (m : MemoryManager) (query response : String) : MemoryManager :=
  (m.add_message MessageRole.user query).add_message MessageRole.assistant response

/-- memory_manager.py lines 371-373. -/
def MemoryManager.clear_history (m : MemoryManager) : MemoryManager :=
  { m with chat_history := [] }

/-! ## Embedding of src/src/api_keys.py and src/src/rag/llm_query.py -/

/-- Python `str.upper()` (ASCII uppercasing, character by character). -/
def py_upper (s : String) : String := String.mk (s.data.map Char.toUpper)

/-- Python `str.strip()`. -/
def py_strip (s : String) : String :=
  String.mk (((s.data.dropWhile Char.isWhitespace).reverse.dropWhile Char.isWhitespace).reverse)

/-- api_keys.py lines 12-16: `if user_key and user_key.strip(): return user_key.strip()`;
Python truthiness makes both `None` and the empty string falsy. -/
def get_groq_key : Option String → Option String
  | none => none
  | some user_key =>
      if user_key ≠ "" ∧ py_strip user_key ≠ "" then some (py_strip user_key) else none

/-- api_keys.py lines 19-23 (identical body). -/
def get_openai_key : Option String → Option String
  | none => none
  | some user_key =>
      if user_key ≠ "" ∧ py_strip user_key ≠ "" then some (py_strip user_key) else none

/-- api_keys.py lines 26-30 (identical body). -/
def get_gemini_key : Option String → Option String
  | none => none
  | some user_key =>
      if user_key ≠ "" ∧ py_strip user_key ≠ "" then some (py_strip user_key) else none

/-- api_keys.py lines 33-37 (identical body). -/
def get_deepseek_key : Option String → Option String
  | none => none
  | some user_key =>
      if user_key ≠ "" ∧ py_strip user_key ≠ "" then some (py_strip user_key) else none

/-- The top-level names bound in module `src.rag.memory_manager` (its imports
at memory_manager.py lines 6-14 plus the single class definition at line 17).
No module-level `prepare_context` function or `MemoryManager` instance is
among them. -/
def memory_manager_module_attrs : List String :=
  ["Dict", "List", "Optional", "Tuple", "tiktoken", "ChatMessage", "MessageRole", "LlamaGroq",
   "APIKeyManager", "MODEL_NAME", "QUESTION_THRESHOLD", "RECENT_MESSAGES_LIMIT",
   "SUMMARIZE_THRESHOLD", "TOKEN_LIMIT", "MemoryManager"]

/-- The `AttributeError` message raised by CPython at llm_query.py line 83 (and
lines 112, 153, 197) when `memory_manager.prepare_context` is resolved. -/
def prepare_context_attr_error : String :=
  "module \x27src.rag.memory_manager\x27 has no attribute \x27prepare_context\x27"

/-- llm_query.py lines 69-93: `query_with_groq`.  Line 83 resolves
`prepare_context` as an attribute of the imported `memory_manager` module and
unpacks the result into three names.  The attribute lookup raises
`AttributeError` (the module has no such attribute); even if it resolved to
the method, `MemoryManager.prepare_context` returns a two-tuple, so the
three-name unpacking would raise `ValueError`.  Either way the function
raises before `llm.chat` (line 89) or `add_exchange` (line 92) can run, so it
is embedded as the raised exception. -/
def query_with_groq (m : MemoryManager) (query context api_key : String) :
    Except String (String × MemoryManager) :=
  if memory_manager_module_attrs.contains "prepare_context" then
    Except.error "not enough values to unpack (expected 3, got 2)"
  else
    Except.error prepare_context_attr_error

/-- llm_query.py lines 96-133: `query_with_openai`, same failure at line 112. -/
def query_with_openai (m : MemoryManager) (query context api_key : String) :
    Except String (String × MemoryManager) :=
  if memory_manager_module_attrs.contains "prepare_context" then
    Except.error "not enough values to unpack (expected 3, got 2)"
  else
    Except.error prepare_context_attr_error

/-- llm_query.py lines 136-175: `query_with_gemini`, same failure at line 153. -/
def query_with_gemini (m : MemoryManager) (query context api_key : String) :
    Except String (String × MemoryManager) :=
  if memory_manager_module_attrs.contains "prepare_context" then
    Except.error "not enough values to unpack (expected 3, got 2)"
  else
    Except.error prepare_context_attr_error

/-- llm_query.py lines 178-220: `query_with_deepseek`, same failure at line 197. -/
def query_with_deepseek (m : MemoryManager) (query context api_key : String) :
    Except String (String × MemoryManager) :=
  if memory_manager_module_attrs.contains "prepare_context" then
    Except.error "not enough values to unpack (expected 3, got 2)"
  else
    Except.error prepare_context_attr_error

/-- llm_query.py lines 223-289: `process_query`.  The context sentinel check,
then per-provider key resolution (missing key reported before any provider
call), the provider call wrapped in `try/except` whose exception text is
surfaced as a user-facing string, and the unknown-provider fallthrough. -/
def process_query (m : MemoryManager) (query context : String) (api_provider : String)
    (api_key_groq api_key_openai api_key_gemini api_key_deepseek : Option String) :
    String × MemoryManager :=
  if context = "No relevant information found in the documents." then
    ("I don\x27t have enough information to answer this question.", m)
  else if api_provider = "groq" then
    match get_groq_key api_key_groq with
    | none => ("Error: " ++ py_upper api_provider
        ++ " API key not configured. Please provide your API key in the API Settings.", m)
    | some api_key =>
        match query_with_groq m query context api_key with
        | Except.ok result => result
        | Except.error e => ("Error: Failed to get response from Groq: " ++ e, m)
  else if api_provider = "openai" then
    match get_openai_key api_key_openai with
    | none => ("Error: " ++ py_upper api_provider
        ++ " API key not configured. Please provide your API key in the API Settings.", m)
    | some api_key =>
        match query_with_openai m query context api_key with
        | Except.ok result => result
        | Except.error e => ("Error: Failed to get response from OpenAI: " ++ e, m)
  else if api_provider = "gemini" then
    match get_gemini_key api_key_gemini with
    | none => ("Error: " ++ py_upper api_provider
        ++ " API key not configured. Please provide your API key in the API Settings.", m)
    | some api_key =>
        match query_with_gemini m query context api_key with
        | Except.ok result => result
        | Except.error e => ("Error: Failed to get response from Gemini: " ++ e, m)
  else if api_provider = "deepseek" then
    match get_deepseek_key api_key_deepseek with
    | none => ("Error: " ++ py_upper api_provider
        ++ " API key not configured. Please provide your API key in the API Settings.", m)
    | some api_key =>
        match query_with_deepseek m query context api_key with
        | Except.ok result => result
        | Except.error e => ("Error: Failed to get response from Deepseek: " ++ e, m)
  else
    ("Error: Unknown API provider \x27" ++ api_provider ++ "\x27. Please select a valid provider.", m)

/-! ## Shared lemmas -/

set_option maxRecDepth 40000

/-- Both components of a successful `prepare_context` result besides the
messages: the threaded manager state is the input state, and the error is the
query-refusal string exactly when the query exceeds the question threshold. -/
lemma prepare_context_some_fields (m : MemoryManager) (oracle : String → Option String)
    (fuel : Nat) (query system_prompt context : String)
    (r : List ChatMessage × Option String × MemoryManager)
    (h : m.prepare_context oracle fuel query system_prompt context = some r) :
    r.2.2 = m ∧
      r.2.1 = (if m.count_tokens query * m.question_threshold_den >
          m.token_limit * m.question_threshold_num then
        some "Your question is too long. Please ask a shorter question." else none) := by
  by_cases hc : m.count_tokens query * m.question_threshold_den >
      m.token_limit * m.question_threshold_num
  · simp only [MemoryManager.prepare_context, if_pos hc] at h
    cases h
    simp [hc]
  · simp only [MemoryManager.prepare_context, if_neg hc] at h
    rcases Option.map_eq_some'.mp h with ⟨messages, _, hval⟩
    subst hval
    simp [hc]

/-- When the query passes the threshold check and the baseline assembly
already fits the budget, `prepare_context` returns exactly the baseline with
no error. -/
lemma prepare_context_of_fits (m : MemoryManager) (oracle : String → Option String)
    (fuel : Nat) (query system_prompt context : String)
    (hq : ¬ m.count_tokens query * m.question_threshold_den >
      m.token_limit * m.question_threshold_num)
    (hfit : m.total_tokens_of (m.baseline_messages oracle query system_prompt context) ≤
      m.token_limit) :
    m.prepare_context oracle fuel query system_prompt context =
      some (m.baseline_messages oracle query system_prompt context, none, m) := by
  simp only [MemoryManager.prepare_context, if_neg hq, MemoryManager.assemble_messages,
    if_neg (not_lt.mpr hfit), Option.map_some']

/-- `get_older_messages a b` is the slice `chat_history[a:b]` when `a` is in
bounds. -/
lemma get_older_messages_eq (m : MemoryManager) (a b : Nat)
    (h : a < m.chat_history.length) :
    m.get_older_messages a b = (m.chat_history.drop a).take (b - a) := by
  rw [MemoryManager.get_older_messages, if_neg (not_le.mpr h), List.drop_take]
  apply List.take_eq_take.mpr
  simp only [List.length_drop]
  omega

/-- Structure of the baseline assembly for a history longer than both the
recent window and position 3: system prompt, one summary turn over
`chat_history[3:15]`, the recent turns verbatim, and the combined user turn. -/
lemma baseline_messages_structure (m : MemoryManager) (oracle : String → Option String)
    (query system_prompt context : String)
    (h0 : 0 < m.recent_messages_limit)
    (hrl : m.recent_messages_limit < m.chat_history.length)
    (h3 : 3 < m.chat_history.length) :
    m.baseline_messages oracle query system_prompt context =
      ChatMessage.mk MessageRole.system system_prompt ::
        ChatMessage.mk MessageRole.system
          ("Previous conversation summary:\n"
            ++ m.summarize_messages oracle ((m.chat_history.drop 3).take 12)) ::
        (m.chat_history.drop (m.chat_history.length - m.recent_messages_limit)
          ++ [ChatMessage.mk MessageRole.user (build_user_content context query)]) := by
  have hlen0 : 0 < m.chat_history.length := lt_trans h0 hrl
  have hrec : m.get_recent_messages m.recent_messages_limit =
      m.chat_history.drop (m.chat_history.length - m.recent_messages_limit) := by
    rw [MemoryManager.get_recent_messages, if_pos (le_of_lt hrl), py_tail_slice,
      if_neg (Nat.pos_iff_ne_zero.mp h0)]
  have hold : m.get_older_messages 3 15 = (m.chat_history.drop 3).take 12 :=
    get_older_messages_eq m 3 15 h3
  have hne : ((m.chat_history.drop 3).take 12).isEmpty = false := by
    have hne' : (m.chat_history.drop 3).take 12 ≠ [] := by
      intro hE
      have hl := congrArg List.length hE
      simp only [List.length_take, List.length_drop, List.length_nil] at hl
      omega
    cases hB : ((m.chat_history.drop 3).take 12).isEmpty
    · rfl
    · exact absurd (List.isEmpty_iff.mp hB) hne'
  simp only [MemoryManager.baseline_messages, if_pos hlen0, if_pos hrl, hold, hne,
    Bool.false_eq_true, if_false, hrec]
  simp [List.append_assoc]

/-- A string starting with the summary header is never empty. -/
lemma summary_header_append_ne_empty (t : String) :
    "Previous conversation summary:\n" ++ t ≠ "" := by
  intro h
  have hl := congrArg String.length h
  rw [String.length_append] at hl
  have h31 : ("Previous conversation summary:\n" : String).length = 31 := rfl
  rw [h31] at hl
  simp at hl

/-- The shrink loop never exits while the guard holds: a string the step maps
to itself, with token count above the target and length above the floor,
makes the loop run out of any amount of fuel. -/
lemma truncate_loop_none_of_fixed (count : String → Nat) (max_tokens : Int) (min_len : Nat)
    (marker : String) (s : String)
    (hfix : truncate_step marker s = s)
    (hcount : (count s : Int) > max_tokens)
    (hlen : min_len < s.data.length) :
    ∀ fuel, truncate_loop count max_tokens min_len marker fuel s = none := by
  intro fuel
  induction fuel with
  | zero => rfl
  | succ n ih =>
      rw [truncate_loop, if_pos ⟨hcount, hlen⟩, hfix]
      exact ih

/-- Partial correctness of the shrink loop: on any terminating run the result
fits the token target or has reached the length floor. -/
lemma truncate_loop_exit (count : String → Nat) (max_tokens : Int) (min_len : Nat)
    (marker : String) :
    ∀ fuel s r, truncate_loop count max_tokens min_len marker fuel s = some r →
      (count r : Int) ≤ max_tokens ∨ r.data.length ≤ min_len := by
  intro fuel
  induction fuel with
  | zero => intro s r h; cases h
  | succ n ih =>
      intro s r h
      rw [truncate_loop] at h
      split at h
      · exact ih _ _ h
      · rename_i hguard
        cases h
        rcases not_and_or.mp hguard with h1 | h2
        · exact Or.inl (not_lt.mp h1)
        · exact Or.inr (not_lt.mp h2)

/-- One shrink step on a string of length at least 341 strictly decreases the
length, for any 34-character marker. -/
lemma truncate_step_length_lt (marker s : String) (hm : marker.data.length = 34)
    (h : 341 ≤ s.data.length) :
    (truncate_step marker s).data.length < s.data.length := by
  have hdata : (truncate_step marker s).data = s.data.take (9 * s.data.length / 10) ++ marker.data := by
    simp [truncate_step, String.append]
  rw [hdata, List.length_append, List.length_take, hm]
  have hdm := Nat.div_add_mod (9 * s.data.length) 10
  have hmod : 9 * s.data.length % 10 < 10 := Nat.mod_lt _ (by norm_num)
  omega

/-! ## Concrete instantiations used by witnesses and counterexamples -/

/-- Encoder mapping each character to one token (an admissible instantiation
of the abstract tokenizer). -/
def enc_one_per_char : String → List Nat := fun s => s.data.map (fun _ => 0)

/-- Encoder counting every text as zero tokens. -/
def enc_zero : String → List Nat := fun _ => []

/-- Summarizer backend whose model call always fails (missing key, provider
error, or unknown provider): `_summarize_with_model` returns `None`. -/
def oracle_fail : String → Option String := fun _ => none

/-! ## C1 -/

/-- Manager with `token_limit = 10`, `question_threshold = 1`, empty history,
one token per character. -/
def m_c1 : MemoryManager := ⟨enc_one_per_char, 10, 3, 7, 10, 1, 1, []⟩

/-- C1 counterexample: with `token_limit = 10`, an empty history and a
16-token system prompt, `prepare_context` returns success (error `None`) while
the returned messages total far more than `token_limit`; the claimed
history-too-long refusal does not exist in the code (lines 248-303 return
`messages, None` unconditionally). -/
theorem prepare_context_over_limit_success_counterexample :
    (m_c1.prepare_context oracle_fail 0 "q" "0123456789ABCDEF" "").map
        (fun r => (r.1, r.2.1)) =
      some ([ChatMessage.mk MessageRole.system "0123456789ABCDEF",
             ChatMessage.mk MessageRole.user (build_user_content "" "q")], none) ∧
    m_c1.token_limit <
      m_c1.total_tokens_of [ChatMessage.mk MessageRole.system "0123456789ABCDEF",
        ChatMessage.mk MessageRole.user (build_user_content "" "q")] := by
  constructor
  · decide
  · decide

/-- C1 (amended): the only refusal `prepare_context` ever returns is the
oversized-query error of lines 156-157; every other path — including those on
which the degradation ladder leaves the total above `token_limit` — returns
the messages with error `None`. -/
theorem prepare_context_error_only_query_refusal (m : MemoryManager)
    (oracle : String → Option String) (fuel : Nat) (query system_prompt context : String)
    (r : List ChatMessage × Option String × MemoryManager)
    (h : m.prepare_context oracle fuel query system_prompt context = some r) :
    r.2.1 = (if m.count_tokens query * m.question_threshold_den >
        m.token_limit * m.question_threshold_num then
      some "Your question is too long. Please ask a shorter question." else none) :=
  (prepare_context_some_fields m oracle fuel query system_prompt context r h).2

/-- C1 witness: the amended theorem applied to the concrete over-limit run. -/
theorem prepare_context_error_only_query_refusal_witness :
    (([ChatMessage.mk MessageRole.system "0123456789ABCDEF",
       ChatMessage.mk MessageRole.user (build_user_content "" "q")],
      (none : Option String), m_c1) :
        List ChatMessage × Option String × MemoryManager).2.1 =
      (if m_c1.count_tokens "q" * m_c1.question_threshold_den >
          m_c1.token_limit * m_c1.question_threshold_num then
        some "Your question is too long. Please ask a shorter question." else none) :=
  prepare_context_error_only_query_refusal m_c1 oracle_fail 0 "q" "0123456789ABCDEF" ""
    _ (by rfl)

/-! ## C2 -/

/-- Manager with `token_limit = 100`, `question_threshold = 0.2` (= 1/5), a
two-turn history, one token per character. -/
def m_c2 : MemoryManager :=
  ⟨enc_one_per_char, 100, 3, 7, 10, 1, 5,
    [ChatMessage.mk MessageRole.user "hi", ChatMessage.mk MessageRole.assistant "yo"]⟩

/-- A 25-token query for `m_c2`. -/
def query_25 : String := "aaaaaaaaaaaaaaaaaaaaaaaaa"

/-- A 15-token query for `m_c2`. -/
def query_15 : String := "aaaaaaaaaaaaaaa"

/-- C2: a query whose token count exceeds `token_limit * question_threshold`
makes `prepare_context` return immediately — empty message list, the
question-too-long error, the manager (hence the history) unchanged — for every
oracle, fuel, context and history; and in the `token_limit = 100`,
`question_threshold = 0.2` scenario a 25-token query is rejected while a
15-token query proceeds with error `None`. -/
theorem query_too_long_rejected :
    (∀ (m : MemoryManager) (oracle : String → Option String) (fuel : Nat)
        (query system_prompt context : String),
      m.count_tokens query * m.question_threshold_den >
          m.token_limit * m.question_threshold_num →
        m.prepare_context oracle fuel query system_prompt context =
          some ([], some "Your question is too long. Please ask a shorter question.", m)) ∧
    (m_c2.prepare_context oracle_fail 0 query_25 "s" "c").map (fun r => (r.1, r.2.1)) =
      some ([], some "Your question is too long. Please ask a shorter question.") ∧
    (m_c2.prepare_context oracle_fail 0 query_15 "s" "c").map (fun r => r.2.1) =
      some none := by
  refine ⟨?_, by decide, by decide⟩
  intro m oracle fuel query system_prompt context hc
  simp only [MemoryManager.prepare_context, if_pos hc]

/-- C2 witness: the universal part applied to the concrete 25-token query. -/
theorem query_too_long_rejected_witness :
    m_c2.prepare_context oracle_fail 0 query_25 "s" "c" =
      some ([], some "Your question is too long. Please ask a shorter question.", m_c2) :=
  query_too_long_rejected.1 m_c2 oracle_fail 0 query_25 "s" "c" (by decide)

/-! ## C4 -/

/-- C4: `prepare_context` threads the manager state through unchanged (the
method never writes `self.chat_history`), and `add_exchange` appends exactly
the user turn followed by the assistant turn, leaving every previously stored
turn in place. -/
theorem prepare_context_readonly_add_exchange_appends_two :
    (∀ (m : MemoryManager) (oracle : String → Option String) (fuel : Nat)
        (query system_prompt context : String)
        (r : List ChatMessage × Option String × MemoryManager),
      m.prepare_context oracle fuel query system_prompt context = some r →
        r.2.2.chat_history = m.chat_history) ∧
    (∀ (m : MemoryManager) (query response : String),
      (m.add_exchange query response).chat_history =
          m.chat_history ++ [ChatMessage.mk MessageRole.user query,
            ChatMessage.mk MessageRole.assistant response] ∧
        (m.add_exchange query response).chat_history.take m.chat_history.length =
          m.chat_history) := by
  constructor
  · intro m oracle fuel query system_prompt context r h
    rw [(prepare_context_some_fields m oracle fuel query system_prompt context r h).1]
  · intro m query response
    constructor
    · simp [MemoryManager.add_exchange, MemoryManager.add_message, List.append_assoc]
    · have hh : (m.add_exchange query response).chat_history =
          m.chat_history ++ [ChatMessage.mk MessageRole.user query,
            ChatMessage.mk MessageRole.assistant response] := by
        simp [MemoryManager.add_exchange, MemoryManager.add_message, List.append_assoc]
      rw [hh, List.take_left]

/-- Manager with a large budget and empty history for witnesses. -/
def m_roomy : MemoryManager := ⟨enc_one_per_char, 100000, 3, 7, 10, 1, 1, []⟩

/-- C4 witness: both parts applied at concrete inputs. -/
theorem prepare_context_readonly_add_exchange_appends_two_witness :
    (([ChatMessage.mk MessageRole.system "s",
       ChatMessage.mk MessageRole.user (build_user_content "c" "q")],
      (none : Option String), m_roomy) :
        List ChatMessage × Option String × MemoryManager).2.2.chat_history =
      m_roomy.chat_history ∧
    (m_roomy.add_exchange "x" "y").chat_history =
      m_roomy.chat_history ++ [ChatMessage.mk MessageRole.user "x",
        ChatMessage.mk MessageRole.assistant "y"] :=
  ⟨prepare_context_readonly_add_exchange_appends_two.1 m_roomy oracle_fail 0 "q" "s" "c"
      _ (by rfl),
    (prepare_context_readonly_add_exchange_appends_two.2 m_roomy "x" "y").1⟩

/-! ## C7 -/

/-- C7: running `prepare_context` a second time on the manager state returned
by a first successful run — same query, system prompt, context, oracle and
fuel — produces the identical result: assembly has no hidden mutable state
beyond the configuration and history, which the call leaves unchanged. -/
theorem prepare_context_idempotent_rerun (m : MemoryManager)
    (oracle : String → Option String) (fuel : Nat) (query system_prompt context : String)
    (r : List ChatMessage × Option String × MemoryManager)
    (h : m.prepare_context oracle fuel query system_prompt context = some r) :
    r.2.2.prepare_context oracle fuel query system_prompt context = some r := by
  rw [(prepare_context_some_fields m oracle fuel query system_prompt context r h).1]
  exact h

/-- C7 witness: rerunning the concrete successful call reproduces it. -/
theorem prepare_context_idempotent_rerun_witness :
    (([ChatMessage.mk MessageRole.system "s",
       ChatMessage.mk MessageRole.user (build_user_content "c" "q")],
      (none : Option String), m_roomy) :
        List ChatMessage × Option String × MemoryManager).2.2.prepare_context
        oracle_fail 0 "q" "s" "c" =
      some ([ChatMessage.mk MessageRole.system "s",
             ChatMessage.mk MessageRole.user (build_user_content "c" "q")], none, m_roomy) :=
  prepare_context_idempotent_rerun m_roomy oracle_fail 0 "q" "s" "c" _ (by rfl)

/-! ## C3 -/

/-- Five-turn history with distinct contents. -/
def hist_5 : List ChatMessage :=
  [ChatMessage.mk MessageRole.user "m0", ChatMessage.mk MessageRole.assistant "m1",
   ChatMessage.mk MessageRole.user "m2", ChatMessage.mk MessageRole.assistant "m3",
   ChatMessage.mk MessageRole.user "m4"]

/-- Manager over `hist_5` whose encoder counts everything as zero tokens, so
the baseline always fits and no degradation runs. -/
def m_c3 : MemoryManager := ⟨enc_zero, 50, 3, 7, 10, 1, 1, hist_5⟩

/-- C3 counterexample: with 5 history turns and `recent_messages_limit = 3`,
the claim says the baseline summary covers exactly
`chat_history[0 : len - 3]` — turns `m0, m1`.  The code instead summarizes
`get_older_messages 3 15` — turns `m3, m4` (which are among the recent
window) — as the produced summary turn shows. -/
theorem baseline_summary_window_counterexample :
    (m_c3.prepare_context oracle_fail 0 "q" "s" "c").map (fun r => r.1.get? 1) =
      some (some (ChatMessage.mk MessageRole.system
        "Previous conversation summary:\nPrevious conversation summary:\nAssistant: m3\nUser: m4")) ∧
    (m_c3.prepare_context oracle_fail 0 "q" "s" "c").map (fun r => r.1.get? 1) ≠
      some (some (ChatMessage.mk MessageRole.system
        ("Previous conversation summary:\n" ++ m_c3.summarize_messages oracle_fail
          (m_c3.chat_history.take (m_c3.chat_history.length - m_c3.recent_messages_limit))))) := by
  constructor
  · decide
  · decide

/-- C3 (amended): for any history with more than `recent_messages_limit` and
more than 3 turns, the baseline summary turn covers exactly
`chat_history[3 : 15]` — i.e. `(chat_history.drop 3).take 12`, positions 4
through 15 — not everything older than the recent window; turns at positions
1-3 and beyond 15 never enter the baseline summary.  When the query passes the
threshold and the baseline fits the budget, this baseline is returned as is. -/
theorem baseline_summary_window_is_positions_4_to_15 (m : MemoryManager)
    (oracle : String → Option String) (fuel : Nat) (query system_prompt context : String)
    (h0 : 0 < m.recent_messages_limit)
    (hrl : m.recent_messages_limit < m.chat_history.length)
    (h3 : 3 < m.chat_history.length)
    (hq : ¬ m.count_tokens query * m.question_threshold_den >
      m.token_limit * m.question_threshold_num)
    (hfit : m.total_tokens_of (m.baseline_messages oracle query system_prompt context) ≤
      m.token_limit) :
    m.prepare_context oracle fuel query system_prompt context =
      some (ChatMessage.mk MessageRole.system system_prompt ::
        ChatMessage.mk MessageRole.system
          ("Previous conversation summary:\n"
            ++ m.summarize_messages oracle ((m.chat_history.drop 3).take 12)) ::
        (m.chat_history.drop (m.chat_history.length - m.recent_messages_limit)
          ++ [ChatMessage.mk MessageRole.user (build_user_content context query)]),
        none, m) := by
  rw [prepare_context_of_fits m oracle fuel query system_prompt context hq hfit,
    baseline_messages_structure m oracle query system_prompt context h0 hrl h3]

/-- C3 witness: the amended theorem applied to the five-turn history. -/
theorem baseline_summary_window_witness :
    m_c3.prepare_context oracle_fail 0 "q" "s" "c" =
      some (ChatMessage.mk MessageRole.system "s" ::
        ChatMessage.mk MessageRole.system
          ("Previous conversation summary:\n"
            ++ m_c3.summarize_messages oracle_fail ((m_c3.chat_history.drop 3).take 12)) ::
        (m_c3.chat_history.drop (m_c3.chat_history.length - m_c3.recent_messages_limit)
          ++ [ChatMessage.mk MessageRole.user (build_user_content "c" "q")]),
        none, m_c3) :=
  baseline_summary_window_is_positions_4_to_15 m_c3 oracle_fail 0 "q" "s" "c"
    (by decide) (by decide) (by decide) (by decide) (by decide)

/-! ## C5 -/

/-- Encoder assigning 600 tokens to the 311-character combined user turn,
500 tokens to the 150-character retrieved context, and zero to everything
else: an admissible tokenizer that keeps the kernel computation small while
driving the run into the context-truncation branch. -/
def enc_c5 : String → List Nat :=
  fun s => List.replicate (if s.data.length = 311 then 600
    else if s.data.length = 150 then 500 else 0) 0

/-- 150-character retrieved context. -/
def ctx_c5 : String := String.mk (List.replicate 150 'c')

/-- The context after one shrink iteration: the leading 135 characters plus
the truncation marker. -/
def ctx_c5_truncated : String := String.mk (List.replicate 135 'c') ++ context_truncation_marker

/-- Manager with `token_limit = 599` (one below the 600-token baseline) and a
two-turn history `user "u", assistant "a"`. -/
def m_c5 : MemoryManager :=
  ⟨enc_c5, 599, 3, 7, 10, 1, 1,
    [ChatMessage.mk MessageRole.user "u", ChatMessage.mk MessageRole.assistant "a"]⟩

/-- C5: evaluation of the code at the failing input.  The successful call
returns messages in which the truncated-context query message has OVERWRITTEN
the verbatim recent user turn `"u"` (lines 213-219 replace the first
USER-role message, which is a history turn, not the final query turn), while
the final user turn still carries the full untruncated context.  The returned
list is not of the claimed shape `[system, optional summary, recent verbatim
turns, current-query turn]`. -/
theorem context_truncation_clobbers_recent_user_turn :
    (m_c5.prepare_context oracle_fail 5 "q" "S" ctx_c5).map (fun r => (r.1, r.2.1)) =
      some ([ChatMessage.mk MessageRole.system "S",
             ChatMessage.mk MessageRole.user (build_user_content ctx_c5_truncated "q"),
             ChatMessage.mk MessageRole.assistant "a",
             ChatMessage.mk MessageRole.user (build_user_content ctx_c5 "q")], none) ∧
    ChatMessage.mk MessageRole.user "u" ∉
      [ChatMessage.mk MessageRole.system "S",
       ChatMessage.mk MessageRole.user (build_user_content ctx_c5_truncated "q"),
       ChatMessage.mk MessageRole.assistant "a",
       ChatMessage.mk MessageRole.user (build_user_content ctx_c5 "q")] := by
  constructor
  · decide
  · decide

/-! ## C6 -/

/-- The deterministic fallback as the amended claim words it: all messages
verbatim when there are at most 10, otherwise the formatted first 5 and last
5 with the elision marker and a trailing line giving the total number of
summarized exchanges. -/
def amended_fallback_summary (messages : List ChatMessage) : String :=
  let lines := messages.map format_message_line
  if lines.length ≤ 10 then String.intercalate "\n" lines
  else
    String.intercalate "\n" (lines.take 5)
      ++ "\n... [previous exchanges] ..."
      ++ String.intercalate "\n" (lines.drop (lines.length - 5))
      ++ "\n\nIn total: " ++ toString lines.length ++ " exchanges summarized."

/-- The source's fallback body coincides with the amended description. -/
lemma fallback_body_eq_amended (messages : List ChatMessage) :
    fallback_summary_body (messages.map format_message_line) =
      amended_fallback_summary messages := by
  simp only [fallback_summary_body, amended_fallback_summary]
  by_cases h : 10 < (messages.map format_message_line).length
  · rw [if_pos h, if_neg (by omega : ¬ (messages.map format_message_line).length ≤ 10)]
  · rw [if_neg h, if_pos (not_lt.mp h)]

/-- A ten-message conversation used to refute the claimed boundary. -/
def msgs_10 : List ChatMessage :=
  [ChatMessage.mk MessageRole.user "x1", ChatMessage.mk MessageRole.assistant "x2",
   ChatMessage.mk MessageRole.user "x3", ChatMessage.mk MessageRole.assistant "x4",
   ChatMessage.mk MessageRole.user "x5", ChatMessage.mk MessageRole.assistant "x6",
   ChatMessage.mk MessageRole.user "x7", ChatMessage.mk MessageRole.assistant "x8",
   ChatMessage.mk MessageRole.user "x9", ChatMessage.mk MessageRole.assistant "x10"]

/-- C6 counterexample: the claim says the fallback is first-5/last-5 with an
elision marker, with all-verbatim reserved for FEWER than 10 turns.  At
exactly 10 messages the code takes the verbatim branch (`> 10` at line 103):
the failing-model output contains no elision marker although the list does
not have fewer than 10 messages. -/
theorem summarize_fallback_boundary_counterexample :
    ¬ (str_contains (m_roomy.summarize_messages oracle_fail msgs_10)
          "... [previous exchanges] ..." = true ∨
       msgs_10.length < 10) := by
  decide

/-- C6 (amended): `summarize_messages` is total and never returns the empty
string for any oracle behaviour; whenever the model call fails the result is
the header plus the deterministic fallback — all messages verbatim for at
most 10 messages, first-5/last-5 with the elision marker and the total
exchange count for more than 10; and with the failing summarizer backend
`prepare_context` still succeeds whenever the query passes the threshold and
the baseline fits the budget. -/
theorem summarize_total_and_fallback :
    (∀ (m : MemoryManager) (oracle : String → Option String) (messages : List ChatMessage),
      m.summarize_messages oracle messages ≠ "") ∧
    (∀ (m : MemoryManager) (oracle : String → Option String) (messages : List ChatMessage),
      oracle (conversation_text_of messages) = none →
        m.summarize_messages oracle messages =
          "Previous conversation summary:\n" ++ amended_fallback_summary messages) ∧
    (∀ (m : MemoryManager) (fuel : Nat) (query system_prompt context : String),
      ¬ m.count_tokens query * m.question_threshold_den >
          m.token_limit * m.question_threshold_num →
      m.total_tokens_of (m.baseline_messages oracle_fail query system_prompt context) ≤
          m.token_limit →
        (m.prepare_context oracle_fail fuel query system_prompt context).map
          (fun r => r.2.1) = some none) := by
  refine ⟨?_, ?_, ?_⟩
  · intro m oracle messages
    simp only [MemoryManager.summarize_messages]
    cases h : oracle (String.intercalate "\n" (messages.map format_message_line)) with
    | none => exact summary_header_append_ne_empty _
    | some summary =>
        dsimp only
        by_cases hs : summary = ""
        · rw [if_pos hs]; exact summary_header_append_ne_empty _
        · rw [if_neg hs]; exact summary_header_append_ne_empty _
  · intro m oracle messages hor
    simp only [conversation_text_of] at hor
    simp only [MemoryManager.summarize_messages, hor]
    rw [fallback_body_eq_amended]
  · intro m fuel query system_prompt context hq hfit
    rw [prepare_context_of_fits m oracle_fail fuel query system_prompt context hq hfit]
    rfl

/-- C6 witness: the fallback equality and non-emptiness applied to concrete
three-message and ten-message conversations with the failing backend. -/
theorem summarize_total_and_fallback_witness :
    m_roomy.summarize_messages oracle_fail msgs_10 ≠ "" ∧
    m_roomy.summarize_messages oracle_fail msgs_10 =
      "Previous conversation summary:\n" ++ amended_fallback_summary msgs_10 :=
  ⟨summarize_total_and_fallback.1 m_roomy oracle_fail msgs_10,
    summarize_total_and_fallback.2.1 m_roomy oracle_fail msgs_10 (by rfl)⟩

/-! ## C8 -/

/-- A fixed point of the shrink step: 306 characters followed by the
34-character truncation marker (length 340, and
`9 * 340 / 10 = 306` reproduces exactly the 306-character prefix). -/
def s_fixed : String := String.mk (List.replicate 306 'x' ++ context_truncation_marker.data)

/-- Termination of a shrink loop on a given input: some amount of fuel makes
it return. -/
def truncation_terminates (count : String → Nat) (max_tokens : Int) (min_len : Nat)
    (marker : String) (s : String) : Prop :=
  ∃ fuel r, truncate_loop count max_tokens min_len marker fuel s = some r

/-- C8 counterexample: with the one-token-per-character counter and the
positive token target 101, the context-truncation loop never terminates on
`s_fixed`: the shrink step maps the 340-character string to itself while the
guard (token count above target, length above the 100 floor) keeps holding. -/
theorem truncation_loop_divergence_counterexample :
    ¬ truncation_terminates (fun s => s.data.length) 101 100 context_truncation_marker
        s_fixed := by
  rintro ⟨fuel, r, h⟩
  rw [truncate_loop_none_of_fixed (fun s => s.data.length) 101 100 context_truncation_marker
    s_fixed (by decide) (by decide) (by decide) fuel] at h
  cases h

/-- C8 (amended): the shrink loops are partially correct — any terminating
run ends at a string that fits the token target or has reached the length
floor — and each iteration strictly shortens strings of length at least 341;
but they are not terminating in general: any string that the step leaves
unchanged, with token count above the target and length above the floor,
makes the loop diverge for every amount of fuel. -/
theorem truncation_loop_partial_correctness :
    (∀ (count : String → Nat) (max_tokens : Int) (min_len : Nat) (marker : String)
        (fuel : Nat) (s r : String),
      truncate_loop count max_tokens min_len marker fuel s = some r →
        (count r : Int) ≤ max_tokens ∨ r.data.length ≤ min_len) ∧
    (∀ s : String, 341 ≤ s.data.length →
      (truncate_step context_truncation_marker s).data.length < s.data.length ∧
      (truncate_step summary_truncation_marker s).data.length < s.data.length) ∧
    (∀ (count : String → Nat) (max_tokens : Int) (min_len : Nat) (marker : String)
        (s : String),
      truncate_step marker s = s → (count s : Int) > max_tokens → min_len < s.data.length →
        ∀ fuel, truncate_loop count max_tokens min_len marker fuel s = none) :=
  ⟨fun count max_tokens min_len marker fuel s r h =>
      truncate_loop_exit count max_tokens min_len marker fuel s r h,
    fun s h =>
      ⟨truncate_step_length_lt context_truncation_marker s (by decide) h,
       truncate_step_length_lt summary_truncation_marker s (by decide) h⟩,
    fun count max_tokens min_len marker s hfix hcount hlen fuel =>
      truncate_loop_none_of_fixed count max_tokens min_len marker s hfix hcount hlen fuel⟩

/-- C8 witness: the partial-correctness part applied to a terminating run. -/
theorem truncation_loop_partial_correctness_witness :
    (((fun s => s.data.length) "ab" : Nat) : Int) ≤ 1000 ∨ ("ab" : String).data.length ≤ 100 :=
  truncation_loop_partial_correctness.1 (fun s => s.data.length) 1000 100
    context_truncation_marker 1 "ab" "ab" (by rfl)

/-! ## C9 and C10 -/

/-- The memory_manager module exposes no `prepare_context` attribute. -/
lemma module_no_prepare_context_attr :
    memory_manager_module_attrs.contains "prepare_context" = false := by
  decide

/-- Every `query_with_groq` call raises the attribute error. -/
lemma query_with_groq_eq (m : MemoryManager) (query context api_key : String) :
    query_with_groq m query context api_key = Except.error prepare_context_attr_error := by
  rw [query_with_groq, module_no_prepare_context_attr]
  rfl

/-- Every `query_with_openai` call raises the attribute error. -/
lemma query_with_openai_eq (m : MemoryManager) (query context api_key : String) :
    query_with_openai m query context api_key = Except.error prepare_context_attr_error := by
  rw [query_with_openai, module_no_prepare_context_attr]
  rfl

/-- Every `query_with_gemini` call raises the attribute error. -/
lemma query_with_gemini_eq (m : MemoryManager) (query context api_key : String) :
    query_with_gemini m query context api_key = Except.error prepare_context_attr_error := by
  rw [query_with_gemini, module_no_prepare_context_attr]
  rfl

/-- Every `query_with_deepseek` call raises the attribute error. -/
lemma query_with_deepseek_eq (m : MemoryManager) (query context api_key : String) :
    query_with_deepseek m query context api_key = Except.error prepare_context_attr_error := by
  rw [query_with_deepseek, module_no_prepare_context_attr]
  rfl

/-- C9: `process_query` never lets an exception escape and follows the error
policy — an unknown provider yields an error string; a missing key for the
selected provider yields the distinct configuration-error string without the
provider call being consulted; and a failure inside the provider call is
caught and converted into the descriptive user-facing string, leaving the
manager unchanged. -/
theorem process_query_error_policy (m : MemoryManager) (query context : String)
    (kg ko kgm kd : Option String) :
    (∀ p : String, context ≠ "No relevant information found in the documents." →
      p ≠ "groq" → p ≠ "openai" → p ≠ "gemini" → p ≠ "deepseek" →
      process_query m query context p kg ko kgm kd =
        ("Error: Unknown API provider \x27" ++ p ++ "\x27. Please select a valid provider.", m)) ∧
    (context ≠ "No relevant information found in the documents." →
      get_groq_key kg = none →
      process_query m query context "groq" kg ko kgm kd =
        ("Error: GROQ API key not configured. Please provide your API key in the API Settings.",
          m)) ∧
    (context ≠ "No relevant information found in the documents." →
      get_openai_key ko = none →
      process_query m query context "openai" kg ko kgm kd =
        ("Error: OPENAI API key not configured. Please provide your API key in the API Settings.",
          m)) ∧
    (context ≠ "No relevant information found in the documents." →
      get_gemini_key kgm = none →
      process_query m query context "gemini" kg ko kgm kd =
        ("Error: GEMINI API key not configured. Please provide your API key in the API Settings.",
          m)) ∧
    (context ≠ "No relevant information found in the documents." →
      get_deepseek_key kd = none →
      process_query m query context "deepseek" kg ko kgm kd =
        ("Error: DEEPSEEK API key not configured. Please provide your API key in the API Settings.",
          m)) ∧
    (∀ k : String, context ≠ "No relevant information found in the documents." →
      get_groq_key kg = some k →
      process_query m query context "groq" kg ko kgm kd =
        ("Error: Failed to get response from Groq: " ++ prepare_context_attr_error, m)) ∧
    (∀ k : String, context ≠ "No relevant information found in the documents." →
      get_openai_key ko = some k →
      process_query m query context "openai" kg ko kgm kd =
        ("Error: Failed to get response from OpenAI: " ++ prepare_context_attr_error, m)) ∧
    (∀ k : String, context ≠ "No relevant information found in the documents." →
      get_gemini_key kgm = some k →
      process_query m query context "gemini" kg ko kgm kd =
        ("Error: Failed to get response from Gemini: " ++ prepare_context_attr_error, m)) ∧
    (∀ k : String, context ≠ "No relevant information found in the documents." →
      get_deepseek_key kd = some k →
      process_query m query context "deepseek" kg ko kgm kd =
        ("Error: Failed to get response from Deepseek: " ++ prepare_context_attr_error, m)) := by
  refine ⟨?_, ?_, ?_, ?_, ?_, ?_, ?_, ?_, ?_⟩
  · intro p hc h1 h2 h3 h4
    rw [process_query, if_neg hc, if_neg h1, if_neg h2, if_neg h3, if_neg h4]
  · intro hc hk
    rw [process_query, if_neg hc, if_pos rfl, hk]
    rfl
  · intro hc hk
    rw [process_query, if_neg hc, if_neg (by decide : ¬ ("openai" : String) = "groq"),
      if_pos rfl, hk]
    rfl
  · intro hc hk
    rw [process_query, if_neg hc, if_neg (by decide : ¬ ("gemini" : String) = "groq"),
      if_neg (by decide : ¬ ("gemini" : String) = "openai"), if_pos rfl, hk]
    rfl
  · intro hc hk
    rw [process_query, if_neg hc, if_neg (by decide : ¬ ("deepseek" : String) = "groq"),
      if_neg (by decide : ¬ ("deepseek" : String) = "openai"),
      if_neg (by decide : ¬ ("deepseek" : String) = "gemini"), if_pos rfl, hk]
    rfl
  · intro k hc hk
    rw [process_query, if_neg hc, if_pos rfl, hk]
    dsimp only
    rw [query_with_groq_eq]
  · intro k hc hk
    rw [process_query, if_neg hc, if_neg (by decide : ¬ ("openai" : String) = "groq"),
      if_pos rfl, hk]
    dsimp only
    rw [query_with_openai_eq]
  · intro k hc hk
    rw [process_query, if_neg hc, if_neg (by decide : ¬ ("gemini" : String) = "groq"),
      if_neg (by decide : ¬ ("gemini" : String) = "openai"), if_pos rfl, hk]
    dsimp only
    rw [query_with_gemini_eq]
  · intro k hc hk
    rw [process_query, if_neg hc, if_neg (by decide : ¬ ("deepseek" : String) = "groq"),
      if_neg (by decide : ¬ ("deepseek" : String) = "openai"),
      if_neg (by decide : ¬ ("deepseek" : String) = "gemini"), if_pos rfl, hk]
    dsimp only
    rw [query_with_deepseek_eq]

/-- C9 witness: the unknown-provider and missing-key parts at concrete inputs. -/
theorem process_query_error_policy_witness :
    process_query m_roomy "q" "c" "cohere" none none none none =
      ("Error: Unknown API provider \x27cohere\x27. Please select a valid provider.", m_roomy) ∧
    process_query m_roomy "q" "c" "groq" none none none none =
      ("Error: GROQ API key not configured. Please provide your API key in the API Settings.",
        m_roomy) :=
  ⟨(process_query_error_policy m_roomy "q" "c" none none none none).1 "cohere"
      (by decide) (by decide) (by decide) (by decide) (by decide),
    (process_query_error_policy m_roomy "q" "c" none none none none).2.1
      (by decide) (by rfl)⟩

/-- C10: the imported `memory_manager` module has no `prepare_context`
attribute, so each of the four provider query functions raises before any LLM
request is issued; consequently, for every configured key, `process_query`
returns the caught-exception error string and the manager — hence the chat
history — is unchanged: `add_exchange` is never reached on this path. -/
theorem llm_query_module_attr_failure :
    memory_manager_module_attrs.contains "prepare_context" = false ∧
    (∀ (m : MemoryManager) (query context api_key : String),
      query_with_groq m query context api_key = Except.error prepare_context_attr_error ∧
      query_with_openai m query context api_key = Except.error prepare_context_attr_error ∧
      query_with_gemini m query context api_key = Except.error prepare_context_attr_error ∧
      query_with_deepseek m query context api_key = Except.error prepare_context_attr_error) ∧
    (∀ (m : MemoryManager) (query context : String) (kg ko kgm kd : Option String)
        (k : String),
      context ≠ "No relevant information found in the documents." →
      get_groq_key kg = some k →
        process_query m query context "groq" kg ko kgm kd =
          ("Error: Failed to get response from Groq: " ++ prepare_context_attr_error, m) ∧
        (process_query m query context "groq" kg ko kgm kd).2.chat_history =
          m.chat_history) := by
  refine ⟨module_no_prepare_context_attr, ?_, ?_⟩
  · intro m query context api_key
    exact ⟨query_with_groq_eq m query context api_key,
      query_with_openai_eq m query context api_key,
      query_with_gemini_eq m query context api_key,
      query_with_deepseek_eq m query context api_key⟩
  · intro m query context kg ko kgm kd k hc hk
    have h : process_query m query context "groq" kg ko kgm kd =
        ("Error: Failed to get response from Groq: " ++ prepare_context_attr_error, m) := by
      rw [process_query, if_neg hc, if_pos rfl, hk]
      dsimp only
      rw [query_with_groq_eq]
    exact ⟨h, by rw [h]⟩

/-- C10 witness: the consequence applied to a concrete configured key. -/
theorem llm_query_module_attr_failure_witness :
    process_query m_roomy "q" "c" "groq" (some "k") none none none =
      ("Error: Failed to get response from Groq: " ++ prepare_context_attr_error, m_roomy) :=
  (llm_query_module_attr_failure.2.2 m_roomy "q" "c" (some "k") none none none "k"
    (by decide) (by decide)).1
